import Mathlib

/-!
Verification of the call-session orchestration engine of the AI-Calling-Agent
repository.  The definitions below are a shallow embedding of
`backend/src/core/session_manager.py` and `backend/src/nlp/openai_nlp.py`:
pure Python code becomes Lean functions, the mutable `SessionManager` object
becomes explicit state passing, `await`-ed provider calls become oracle
parameters (an `Except`/`Bool` describes whether the call raised), and the
`try/except` structure of each handler is reproduced branch by branch.
-/

namespace AICall

/-- `SessionPhase` enum of `session_manager.py`. -/
inductive SessionPhase where
  | initializing
  | greeting
  | conversation
  | processingSpeech
  | generatingResponse
  | speaking
  | listening
  | transferring
  | ending
  | completed
  | error
deriving DecidableEq, Repr

/-- `ConversationState` enum of `openai_nlp.py`. -/
inductive ConversationState where
  | greeting
  | listening
  | processing
  | responding
  | clarifying
  | closing
  | ended
  | error
deriving DecidableEq, Repr

/-- `IntentType` enum of `openai_nlp.py`. -/
inductive IntentType where
  | greeting
  | question
  | request
  | complaint
  | compliment
  | goodbye
  | unclear
  | interruption
  | hold_request
  | transfer_request
deriving DecidableEq, Repr

/-- One record appended to `session.conversation_log` by `_log_interaction`. -/
structure LogEntry where
  event_type : String
  direction : String
  content : String
deriving DecidableEq, Repr

/-- The mutable per-call state of class `CallSession` (fields the core
claims are about; the opaque `context` bag and audio buffer are omitted). -/
structure CallSession where
  call_id : String
  phase : SessionPhase
  conversation_state : ConversationState
  started_at : Nat
  last_activity : Nat
  is_speaking : Bool
  is_listening : Bool
  conversation_log : List LogEntry
  error_count : Nat
  max_errors : Nat
deriving DecidableEq, Repr

/-- `CallSession.__init__`: fresh session state (timestamps are the current
time `now`). -/
def CallSession.init (cid : String) (now : Nat) : CallSession :=
  { call_id := cid
    phase := SessionPhase.initializing
    conversation_state := ConversationState.greeting
    started_at := now
    last_activity := now
    is_speaking := false
    is_listening := false
    conversation_log := []
    error_count := 0
    max_errors := 3 }

/-- The `SessionManager` state: the Python dict `active_sessions` is an
association list (insertion order preserved, as for a Python dict), and
`ended_log` records each completed `handle_call_ended` together with its
`reason` argument (the `logger.info("Call session ended", reason=...)`
call of the source). -/
structure SessionManager where
  active_sessions : List (String × CallSession)
  ended_log : List (String × String)
deriving DecidableEq, Repr

/-- The empty manager (`SessionManager.__init__`). -/
def SessionManager.empty : SessionManager :=
  { active_sessions := [], ended_log := [] }

/-- Python dict assignment `d[k] = v`: replace the binding if the key is
present, append it otherwise. -/
def insertAL (l : List (String × CallSession)) (cid : String) (s : CallSession) :
    List (String × CallSession) :=
  match l with
  | [] => [(cid, s)]
  | (k, v) :: t => if k = cid then (k, s) :: t else (k, v) :: insertAL t cid s

/-- Python dict lookup `d.get(k)`. -/
def lookupAL (l : List (String × CallSession)) (cid : String) : Option CallSession :=
  match l with
  | [] => none
  | (k, v) :: t => if k = cid then some v else lookupAL t cid

/-- Python `del d[k]`. -/
def removeAL (l : List (String × CallSession)) (cid : String) :
    List (String × CallSession) :=
  l.filter (fun p => decide (p.1 ≠ cid))

/-- `self.active_sessions.get(call_id)`. -/
def SessionManager.lookup (m : SessionManager) (cid : String) : Option CallSession :=
  lookupAL m.active_sessions cid

/-- `self.active_sessions[call_id] = session` (also models every in-place
mutation of an aliased session object, which is visible through the dict). -/
def SessionManager.set (m : SessionManager) (cid : String) (s : CallSession) :
    SessionManager :=
  { m with active_sessions := insertAL m.active_sessions cid s }

/-- `_cleanup_session`: `del self.active_sessions[call_id]` (guarded by
membership; deleting an absent key is a no-op in the source's guard). -/
def SessionManager.remove (m : SessionManager) (cid : String) : SessionManager :=
  { m with active_sessions := removeAL m.active_sessions cid }

/-- Phase of the session stored under `c`, if any. -/
def SessionManager.phaseOf (m : SessionManager) (c : String) : Option SessionPhase :=
  (m.lookup c).map CallSession.phase

/-! ## `OpenAINLP._determine_emotion` (openai_nlp.py) -/

/-- The literal `emotion_mapping` dict with its `.get(intent, "neutral")`
default. -/
def emotionMapping (intent : IntentType) : String :=
  match intent with
  | IntentType.greeting => "friendly"
  | IntentType.question => "helpful"
  | IntentType.request => "professional"
  | IntentType.complaint => "empathetic"
  | IntentType.compliment => "happy"
  | IntentType.goodbye => "friendly"
  | IntentType.unclear => "patient"
  | _ => "neutral"

/-- `OpenAINLP._determine_emotion`: base emotion from the mapping, then the
`if sentiment == "negative" and base == "friendly" ... elif sentiment ==
"positive"` adjustment. -/
def determine_emotion (intent : IntentType) (sentiment : String) : String :=
  let base_emotion := emotionMapping intent
  if sentiment = "negative" ∧ base_emotion = "friendly" then "empathetic"
  else if sentiment = "positive" then "happy"
  else base_emotion

/-! ## Python `str.strip()` as used on the transcription -/

/-- Python whitespace characters stripped by `str.strip()` (ASCII subset;
the transcription check `not text.strip()`). -/
def isPySpace (c : Char) : Bool :=
  c = ' ' ∨ c = '\t' ∨ c = '\n' ∨ c = '\x0d' ∨ c = '\x0b' ∨ c = '\x0c'

/-- Python `s.strip()`. -/
def pyStrip (s : String) : String :=
  String.mk (((s.toList.dropWhile isPySpace).reverse.dropWhile isPySpace).reverse)

/-! ## Provider oracles

Every `await`-ed external call of a handler is modelled by an oracle value
fixed before the handler runs: `Bool`/`Except Unit _` says whether that call
raised, and what it returned.  Synthesized audio is represented by the text
handed to the TTS (the bytes themselves are opaque). -/

/-- Result of `openai_stt.transcribe_audio` when it does not raise. -/
structure Transcription where
  text : String
  confidence : Nat
deriving DecidableEq, Repr

/-- Result of `openai_nlp.process_conversation_turn`.  That method wraps its
whole body in `try/except` and returns `_generate_error_response()` on any
internal failure, so from the session manager's point of view it always
returns a response dict and never raises. -/
structure NLPResponse where
  text : String
  emotion : String
  conversation_state : ConversationState
  intent : String
  sentiment : String
  should_end_call : Bool
  should_transfer : Bool
deriving DecidableEq, Repr

/-- Result of `openai_nlp.get_conversation_summary` (never raises: it
catches internally and returns `None`). -/
structure Summary where
  outcome : String
  customer_sentiment : String
  notes : String
deriving DecidableEq, Repr

/-- Oracle for one `_log_interaction` call: whether opening the DB session
raised, whether `get_call_by_id` found the call record, and whether the
`commit` succeeded.  All exceptions inside `_log_interaction` are caught
and only logged. -/
structure DBLogOracle where
  dbOk : Bool
  callFound : Bool
  commitOk : Bool
deriving DecidableEq, Repr

/-- Oracle for one `handle_call_ended` call: the summary returned by
`get_conversation_summary`, and whether the `async with
db_manager.get_session()` block raised (the `_update_call_completion`
inside it swallows its own exceptions). -/
structure EndOracle where
  summary : Option Summary
  dbOk : Bool
deriving DecidableEq, Repr

/-- Oracle for one `_handle_session_error` call: whether the recovery
`synthesize_speech` raised, and the oracle for the nested
`handle_call_ended` taken on the error-limit path. -/
structure ErrOracle where
  recoveryTTSOk : Bool
  endOra : EndOracle
deriving DecidableEq, Repr

/-- Result of the `openai_stt.transcribe_audio` call: either it raised
(`TranscriptionError`) or it returned a transcription. -/
inductive STTResult where
  | fail
  | ok (t : Transcription)
deriving DecidableEq, Repr

/-- Oracle for one `handle_speech_input` call. -/
structure TurnOracle where
  stt : STTResult
  logIn : DBLogOracle
  nlp : NLPResponse
  ttsOk : Bool
  logOut : DBLogOracle
  errOra : ErrOracle
deriving DecidableEq, Repr

/-- Oracle for one `handle_call_answered` call: the greeting text returned
by `initialize_conversation` (which never raises: it returns a fallback
greeting on failure, always with emotion "friendly" and next state
LISTENING), whether `synthesize_with_emotions` raised, the DB oracle for
logging the greeting, and the error oracle for the failure path. -/
structure AnswerOracle where
  greetingText : String
  ttsOk : Bool
  logOra : DBLogOracle
  errOra : ErrOracle
deriving DecidableEq, Repr

/-- The Python dicts returned by the handlers, one constructor per distinct
return shape of the source. -/
inductive HandlerResult where
  /-- `{'success': True, 'message': ...}` -/
  | ok (message : String)
  /-- the full success dict of `handle_speech_input` -/
  | turn (text transcription intent : String) (should_end_call should_transfer : Bool)
  /-- the success dict of `handle_call_answered` -/
  | answered (text : String)
  /-- the success dict of `handle_call_ended` -/
  | endedOk (summary : Option Summary)
  /-- `{'success': False, 'error': ...}` from `handle_call_ended`'s except -/
  | endedFail
  /-- `{'success': False, 'audio_data': ..., 'recovery_attempt': True}` -/
  | recovery (audioText : String)
  /-- `{'success': False, 'should_end_call': True, 'error': 'Maximum errors exceeded'}` -/
  | limitExceeded
  /-- `{'success': False, 'should_end_call': True, 'error': 'Critical session error'}` -/
  | critical
deriving DecidableEq, Repr

/-- A handler outcome: the returned dict, the manager state after the call,
and the ordered list of provider/DB calls the handler actually issued. -/
def Out := HandlerResult × SessionManager × List String

/-! ## The handlers of `SessionManager` -/

/-- `create_session`: builds a fresh `CallSession` and stores it with plain
dict assignment (overwriting any session already present); the contact and
campaign lookups only enrich the opaque `context` and swallow their own
exceptions, so the call always succeeds. -/
def create_session (m : SessionManager) (cid : String) (now : Nat) : SessionManager :=
  m.set cid (CallSession.init cid now)

/-- `_log_interaction`: opens a DB session, looks the call record up, and
only after a successful `commit` appends the entry to the in-memory
`conversation_log`; any exception is caught and merely logged. -/
def log_interaction (s : CallSession) (event_type direction content : String)
    (ora : DBLogOracle) : CallSession :=
  if ora.dbOk then
    if ora.callFound then
      if ora.commitOk then
        { s with conversation_log :=
            s.conversation_log ++ [⟨event_type, direction, content⟩] }
      else s
    else s
  else s

/-- `handle_call_ended`: look the session up (a missing session raises
`SessionNotFoundError`, caught by the handler's `except`, which returns a
failure dict); set `phase = COMPLETED`; generate the summary (never
raises); open the DB session and run `_update_call_completion` (the open
may raise: then the `except` returns failure and the session — already
marked COMPLETED — stays in the registry); on success remove the session
and log the termination reason. -/
def handle_call_ended (m : SessionManager) (cid reason : String)
    (ora : EndOracle) : Out :=
  match m.lookup cid with
  | none => (HandlerResult.endedFail, m, [])
  | some s =>
    let s1 := { s with phase := SessionPhase.completed }
    let m1 := m.set cid s1
    if ora.dbOk then
      let m2 := (m1.remove cid)
      let m3 := { m2 with ended_log := m2.ended_log ++ [(cid, reason)] }
      (HandlerResult.endedOk ora.summary, m3, ["nlp.summary", "db.update"])
    else
      (HandlerResult.endedFail, m1, ["nlp.summary", "db.update"])

/-- The fixed recovery prompt of `_handle_session_error`. -/
def recoveryText : String :=
  "I apologize, I'm having trouble hearing you. Could you please repeat that?"

/-- `_handle_session_error`: look the session up (missing → the inner
`get_session` raises again and the outer `except` returns the critical
dict, with no state change); increment `error_count` and set
`phase = ERROR`; at or above `max_errors` run `handle_call_ended` with
reason "error_limit_exceeded" and report `should_end_call`; below the
limit synthesize the fixed recovery prompt (if the TTS raises, the outer
`except` returns the critical dict, leaving the session in ERROR) and
return the session to LISTENING. -/
def handle_session_error (m : SessionManager) (cid : String)
    (ora : ErrOracle) : Out :=
  match m.lookup cid with
  | none => (HandlerResult.critical, m, [])
  | some s =>
    let s1 := { s with error_count := s.error_count + 1,
                       phase := SessionPhase.error }
    let m1 := m.set cid s1
    if s1.error_count ≥ s1.max_errors then
      let r := handle_call_ended m1 cid "error_limit_exceeded" ora.endOra
      (HandlerResult.limitExceeded, r.2.1, r.2.2)
    else
      if ora.recoveryTTSOk then
        let m2 := m1.set cid { s1 with phase := SessionPhase.listening }
        (HandlerResult.recovery recoveryText, m2, ["tts.synthesize"])
      else
        (HandlerResult.critical, m1, ["tts.synthesize"])

/-- `handle_speech_input`: update `last_activity`; drop the event if the
session is not LISTENING; otherwise run the turn pipeline with the phase
moved through PROCESSING_SPEECH / GENERATING_RESPONSE / SPEAKING, logging
the inbound transcription before the NLP step and the outbound reply after
the TTS step; any raise goes to `_handle_session_error` with the mutations
made so far left in place. -/
def handle_speech_input (m : SessionManager) (cid : String) (now : Nat)
    (ora : TurnOracle) : Out :=
  match m.lookup cid with
  | none =>
    -- `get_session` raises before any mutation; the except block delegates
    -- to `_handle_session_error`.
    handle_session_error m cid ora.errOra
  | some s0 =>
    let s1 := { s0 with last_activity := now }
    let m1 := m.set cid s1
    if s1.phase ≠ SessionPhase.listening then
      (HandlerResult.ok "Not in listening phase", m1, [])
    else
      let s2 := { s1 with phase := SessionPhase.processingSpeech }
      let m2 := m1.set cid s2
      match ora.stt with
      | STTResult.fail =>
        let r := handle_session_error m2 cid ora.errOra
        (r.1, r.2.1, "stt.transcribe" :: r.2.2)
      | STTResult.ok tr =>
        if pyStrip tr.text = "" then
          let m3 := m2.set cid { s2 with phase := SessionPhase.listening }
          (HandlerResult.ok "No speech detected", m3, ["stt.transcribe"])
        else
          let s3 := log_interaction s2 "speech" "inbound" tr.text ora.logIn
          let m3 := m2.set cid s3
          let s4 := { s3 with phase := SessionPhase.generatingResponse }
          let m4 := m3.set cid s4
          let resp := ora.nlp
          if ora.ttsOk then
            let s5 := log_interaction s4 "response" "outbound" resp.text ora.logOut
            let s6 := { s5 with phase := SessionPhase.speaking,
                                conversation_state := resp.conversation_state }
            let s7 :=
              if resp.should_end_call then { s6 with phase := SessionPhase.ending }
              else if resp.should_transfer then
                { s6 with phase := SessionPhase.transferring }
              else s6
            let m5 := m4.set cid s7
            (HandlerResult.turn resp.text tr.text resp.intent
               resp.should_end_call resp.should_transfer, m5,
             ["stt.transcribe", "db.log", "nlp.turn", "tts.synthesize", "db.log"])
          else
            let r := handle_session_error m4 cid ora.errOra
            (r.1, r.2.1,
             ["stt.transcribe", "db.log", "nlp.turn", "tts.synthesize"] ++ r.2.2)

/-- `handle_call_answered`: set GREETING and `is_listening`; generate the
greeting (`initialize_conversation` never raises); synthesize it (a TTS
raise goes to `_handle_session_error`); log it; set SPEAKING with the
conversation state LISTENING returned by the greeting. -/
def handle_call_answered (m : SessionManager) (cid : String)
    (ora : AnswerOracle) : Out :=
  match m.lookup cid with
  | none => handle_session_error m cid ora.errOra
  | some s0 =>
    let s1 := { s0 with phase := SessionPhase.greeting, is_listening := true }
    let m1 := m.set cid s1
    if ora.ttsOk then
      let s2 := log_interaction s1 "greeting" "outbound" ora.greetingText ora.logOra
      let s3 := { s2 with phase := SessionPhase.speaking,
                          conversation_state := ConversationState.listening }
      let m2 := m1.set cid s3
      (HandlerResult.answered ora.greetingText, m2,
       ["nlp.init", "tts.synthesize", "db.log"])
    else
      let r := handle_session_error m1 cid ora.errOra
      (r.1, r.2.1, ["nlp.init", "tts.synthesize"] ++ r.2.2)

/-- `handle_speech_completed`: set LISTENING and the duplex booleans; a
missing session only logs an error (the method returns `None`). -/
def handle_speech_completed (m : SessionManager) (cid : String) : SessionManager :=
  match m.lookup cid with
  | none => m
  | some s =>
    m.set cid { s with phase := SessionPhase.listening,
                       is_speaking := false, is_listening := true }

/-- The sweep interval of `_session_cleanup_loop` (`asyncio.sleep(300)`). -/
def cleanup_interval : Nat := 300

/-- The inactivity threshold of `_session_cleanup_loop` (1800 seconds). -/
def inactivity_threshold : Nat := 1800

/-- The ids collected by one pass of the `for call_id, session in
self.active_sessions.items()` loop: sessions inactive for more than
`inactivity_threshold` seconds. -/
def stale_sessions (m : SessionManager) (now : Nat) : List String :=
  (m.active_sessions.filter
    (fun p => decide (now - p.2.last_activity > inactivity_threshold))).map Prod.fst

/-- One tick of `_session_cleanup_loop`: collect the stale ids, then call
`handle_call_ended(call_id, reason="timeout")` on each in order. -/
def cleanup_tick (m : SessionManager) (now : Nat)
    (oras : String → EndOracle) : SessionManager :=
  (stale_sessions m now).foldl
    (fun acc cid => (handle_call_ended acc cid "timeout" (oras cid)).2.1) m

/-- The external inputs the session manager reacts to: session creation,
the four telephony events, and one tick of the idle sweeper, each bundled
with the oracle values of the provider calls it makes. -/
inductive Event where
  | create
  | answered (ora : AnswerOracle)
  | speech (ora : TurnOracle)
  | speechDone
  | ended (reason : String) (ora : EndOracle)
  | sweep (oras : String → EndOracle)

/-- The manager state after processing one event (targeted at `cid` where
the event carries a call id; the sweep scans every session). -/
def step (m : SessionManager) (cid : String) (now : Nat) (e : Event) :
    SessionManager :=
  match e with
  | Event.create => create_session m cid now
  | Event.answered ora => (handle_call_answered m cid ora).2.1
  | Event.speech ora => (handle_speech_input m cid now ora).2.1
  | Event.speechDone => handle_speech_completed m cid
  | Event.ended reason ora => (handle_call_ended m cid reason ora).2.1
  | Event.sweep oras => cleanup_tick m now oras

/-- The per-event phase arrows the implementation actually guarantees,
relating the phase of an arbitrary session before and after one event is
processed (`none` = not in the registry).  Each handler sets its target
phases unconditionally; only `handle_speech_input` guards on the current
phase (and is a pure drop outside LISTENING). -/
def phaseStepOk (e : Event) (p q : Option SessionPhase) : Prop :=
  match e with
  | Event.create => q = p ∨ q = some SessionPhase.initializing
  | Event.answered _ =>
      q = p ∨ q = some SessionPhase.speaking ∨ q = some SessionPhase.listening ∨
      q = some SessionPhase.error ∨ q = some SessionPhase.completed ∨ q = none
  | Event.speech _ =>
      if p = some SessionPhase.listening then
        q = p ∨ q = some SessionPhase.speaking ∨ q = some SessionPhase.ending ∨
        q = some SessionPhase.transferring ∨ q = some SessionPhase.error ∨
        q = some SessionPhase.completed ∨ q = none
      else q = p
  | Event.speechDone => q = p ∨ q = some SessionPhase.listening
  | Event.ended _ _ => q = p ∨ q = some SessionPhase.completed ∨ q = none
  | Event.sweep _ => q = p ∨ q = some SessionPhase.completed ∨ q = none

/-! ## Concrete scenario states used by counterexamples and witnesses -/

/-- An all-success DB logging oracle. -/
def okLog : DBLogOracle := ⟨true, true, true⟩

/-- An all-success error-handling oracle. -/
def okErr : ErrOracle := ⟨true, ⟨none, true⟩⟩

/-- A successful answer oracle with greeting text "hello there". -/
def ansOK : AnswerOracle := ⟨"hello there", true, okLog, okErr⟩

/-- A plain NLP turn response (intent "question", no end/transfer). -/
def nlpPlain : NLPResponse :=
  ⟨"reply", "friendly", ConversationState.listening, "question", "neutral",
   false, false⟩

/-- A turn oracle whose transcription succeeds with "hello" but whose reply
synthesis raises. -/
def turnTTSFail : TurnOracle :=
  ⟨STTResult.ok ⟨"hello", 9⟩, okLog, nlpPlain, false, okLog, okErr⟩

/-- A turn oracle whose transcription is whitespace-only. -/
def turnEmpty : TurnOracle :=
  ⟨STTResult.ok ⟨" \t ", 9⟩, okLog, nlpPlain, true, okLog, okErr⟩

/-- A fully successful turn oracle whose DB logging fails at commit. -/
def turnLogFail : TurnOracle :=
  ⟨STTResult.ok ⟨"hello", 9⟩, ⟨true, true, false⟩, nlpPlain, true,
   ⟨true, true, false⟩, okErr⟩

/-- Registry holding the single freshly created session "c" (time 0). -/
def mC : SessionManager := create_session SessionManager.empty "c" 0

/-- `mC` after a successful call-answered event: "c" is SPEAKING. -/
def mAnswered : SessionManager := (handle_call_answered mC "c" ansOK).2.1

/-- `mAnswered` after playback completes: "c" is LISTENING. -/
def mListening : SessionManager := handle_speech_completed mAnswered "c"

/-- `mListening` after a call-ended event whose DB step raises: "c" is
COMPLETED but still in the registry. -/
def mOrphan : SessionManager :=
  (handle_call_ended mListening "c" "completed" ⟨none, false⟩).2.1

/-- The session stored for "c" in `mAnswered` (value spelled out). -/
def sSpeaking : CallSession :=
  { call_id := "c"
    phase := SessionPhase.speaking
    conversation_state := ConversationState.listening
    started_at := 0
    last_activity := 0
    is_speaking := false
    is_listening := true
    conversation_log := [⟨"greeting", "outbound", "hello there"⟩]
    error_count := 0
    max_errors := 3 }

/-- The session stored for "c" in `mListening` (value spelled out). -/
def sListening : CallSession :=
  { sSpeaking with phase := SessionPhase.listening }

/-! ## Registry lemmas -/

theorem lookupAL_insertAL (l : List (String × CallSession)) (cid c : String)
    (s : CallSession) :
    lookupAL (insertAL l cid s) c = if c = cid then some s else lookupAL l c := by
  induction l with
  | nil =>
    by_cases h : c = cid
    · simp [insertAL, lookupAL, h]
    · simp [insertAL, lookupAL, h, Ne.symm h]
  | cons p t ih =>
    obtain ⟨k, v⟩ := p
    by_cases hk : k = cid
    · subst hk
      by_cases hc : c = k
      · simp [insertAL, lookupAL, hc]
      · simp [insertAL, lookupAL, hc, Ne.symm hc]
    · by_cases hc : c = k
      · subst hc
        simp [insertAL, lookupAL, hk, Ne.symm hk]
      · simp [insertAL, lookupAL, hk, hc, Ne.symm hc, ih]

theorem lookupAL_removeAL (l : List (String × CallSession)) (cid c : String) :
    lookupAL (removeAL l cid) c = if c = cid then none else lookupAL l c := by
  induction l with
  | nil => by_cases h : c = cid <;> simp [removeAL, lookupAL, h]
  | cons p t ih =>
    obtain ⟨k, v⟩ := p
    by_cases hk : k = cid
    · subst hk
      by_cases hc : c = k
      · subst hc
        simp_all [removeAL, lookupAL, List.filter]
      · simp_all [removeAL, lookupAL, List.filter, Ne.symm hc]
    · by_cases hc : c = k
      · subst hc
        simp_all [removeAL, lookupAL, List.filter, hk]
      · simp_all [removeAL, lookupAL, List.filter, hk, hc, Ne.symm hc]

@[simp] theorem lookup_set (m : SessionManager) (cid c : String) (s : CallSession) :
    (m.set cid s).lookup c = if c = cid then some s else m.lookup c := by
  simp [SessionManager.set, SessionManager.lookup, lookupAL_insertAL]

@[simp] theorem lookup_remove (m : SessionManager) (cid c : String) :
    (m.remove cid).lookup c = if c = cid then none else m.lookup c := by
  simp [SessionManager.remove, SessionManager.lookup, lookupAL_removeAL]

@[simp] theorem set_ended_log (m : SessionManager) (cid : String) (s : CallSession) :
    (m.set cid s).ended_log = m.ended_log := rfl

@[simp] theorem remove_ended_log (m : SessionManager) (cid : String) :
    (m.remove cid).ended_log = m.ended_log := rfl

theorem insertAL_insertAL (l : List (String × CallSession)) (cid : String)
    (s t : CallSession) :
    insertAL (insertAL l cid s) cid t = insertAL l cid t := by
  induction l with
  | nil => simp [insertAL]
  | cons p r ih =>
    obtain ⟨k, v⟩ := p
    by_cases hk : k = cid
    · simp [insertAL, hk]
    · simp [insertAL, hk, ih]

@[simp] theorem set_set (m : SessionManager) (cid : String) (s t : CallSession) :
    (m.set cid s).set cid t = m.set cid t := by
  simp [SessionManager.set, insertAL_insertAL]

@[simp] theorem lookup_with_ended_log (m : SessionManager)
    (l : List (String × String)) (c : String) :
    SessionManager.lookup { m with ended_log := l } c = m.lookup c := rfl

theorem mem_keys_insertAL (l : List (String × CallSession)) (cid c : String)
    (s : CallSession) :
    c ∈ (insertAL l cid s).map Prod.fst ↔ c ∈ l.map Prod.fst ∨ c = cid := by
  induction l with
  | nil => simp [insertAL]
  | cons p t ih =>
    obtain ⟨k, v⟩ := p
    by_cases hk : k = cid
    · subst hk
      simp [insertAL]
      tauto
    · simp [insertAL, hk, ih]
      tauto

theorem nodup_insertAL (l : List (String × CallSession)) (cid : String)
    (s : CallSession) (h : (l.map Prod.fst).Nodup) :
    ((insertAL l cid s).map Prod.fst).Nodup := by
  induction l with
  | nil => simp [insertAL]
  | cons p t ih =>
    obtain ⟨k, v⟩ := p
    simp only [List.map_cons, List.nodup_cons] at h
    by_cases hk : k = cid
    · subst hk
      simpa [insertAL] using h
    · have ht := ih h.2
      have hmem : k ∉ (insertAL t cid s).map Prod.fst := by
        rw [mem_keys_insertAL]
        push_neg
        exact ⟨h.1, hk⟩
      simp [insertAL, hk, List.nodup_cons, hmem, ht]

/-! ## Sanity checks of the embedding on concrete runs -/

example : mC.phaseOf "c" = some SessionPhase.initializing := by decide

example : mAnswered.lookup "c" = some sSpeaking := by decide

example : mListening.lookup "c" = some sListening := by decide

example : determine_emotion IntentType.unclear "neutral" = "patient" := by decide

/-! ## Claim C9 — emotion selection -/

/-- C9, counterexample: for intent COMPLAINT the mapping's base emotion is
"empathetic" (neither "neutral" nor "friendly"), yet positive sentiment
overrides it to "happy" — refuting "sentiment is … never [used] to
override a non-neutral/non-friendly base emotion". -/
theorem C9_counterexample :
    emotionMapping IntentType.complaint = "empathetic" ∧
    determine_emotion IntentType.complaint "positive" = "happy" := by decide

/-- C9, amended: the emotion is the fixed mapping's value for the intent,
except that negative sentiment escalates a "friendly" base (only) to
"empathetic", and positive sentiment overrides every base emotion to
"happy". -/
theorem C9_emotion_policy (intent : IntentType) (sentiment : String) :
    (determine_emotion intent "positive" = "happy") ∧
    (sentiment ≠ "positive" → sentiment ≠ "negative" →
       determine_emotion intent sentiment = emotionMapping intent) ∧
    (emotionMapping intent = "friendly" →
       determine_emotion intent "negative" = "empathetic") ∧
    (emotionMapping intent ≠ "friendly" →
       determine_emotion intent "negative" = emotionMapping intent) := by
  refine ⟨?_, ?_, ?_, ?_⟩
  · cases intent <;> simp [determine_emotion, emotionMapping]
  · intro h1 h2
    simp [determine_emotion, h1, h2]
  · intro h
    simp [determine_emotion, h]
  · intro h
    simp [determine_emotion, h]

/-- C9 witness: the amended policy applied at concrete inputs. -/
theorem C9_witness :
    determine_emotion IntentType.question "curious" = emotionMapping IntentType.question ∧
    determine_emotion IntentType.greeting "negative" = "empathetic" ∧
    determine_emotion IntentType.unclear "negative" = emotionMapping IntentType.unclear :=
  ⟨(C9_emotion_policy IntentType.question "curious").2.1 (by decide) (by decide),
   (C9_emotion_policy IntentType.greeting "negative").2.2.1 (by decide),
   (C9_emotion_policy IntentType.unclear "negative").2.2.2 (by decide)⟩

/-! ## Claim C2 — session creation -/

/-- C2, counterexample: session "c" is LISTENING with a non-empty
conversation log; a second `create_session` for the same id resets it to a
fresh INITIALIZING session instead of returning the existing state. -/
theorem C2_counterexample :
    mListening.phaseOf "c" = some SessionPhase.listening ∧
    (create_session mListening "c" 0).phaseOf "c" = some SessionPhase.initializing ∧
    (create_session mListening "c" 0).lookup "c" ≠ mListening.lookup "c" := by decide

/-- C2, amended: `create_session` is not idempotent — it always stores a
fresh `CallSession`, overwriting any session already active for the id;
the keyed registry still holds at most one session per call id (key
uniqueness is preserved), and a concurrent create race is never an error
(the call always succeeds). -/
theorem C2_create_overwrites (m : SessionManager) (cid : String) (now : Nat) :
    (create_session m cid now).lookup cid = some (CallSession.init cid now) ∧
    ((m.active_sessions.map Prod.fst).Nodup →
       ((create_session m cid now).active_sessions.map Prod.fst).Nodup) := by
  refine ⟨by simp [create_session], fun h => ?_⟩
  exact nodup_insertAL _ _ _ h

/-- C2 witness: overwriting creation applied to the concrete state `mC`. -/
theorem C2_witness :
    (create_session mC "c" 5).lookup "c" = some (CallSession.init "c" 5) ∧
    ((create_session mC "c" 5).active_sessions.map Prod.fst).Nodup :=
  ⟨(C2_create_overwrites mC "c" 5).1, (C2_create_overwrites mC "c" 5).2 (by decide)⟩

/-! ## Claim C4 — registry reachability vs terminal phase -/

/-- C4, counterexample: after a call-ended event whose DB step raises, the
session is in the terminal phase COMPLETED and still present in the
registry — refuting "reachable from the Registry iff not terminal" and
"no failure during termination leaves a terminal session in the
Registry". -/
theorem C4_counterexample :
    mOrphan.phaseOf "c" = some SessionPhase.completed ∧
    mOrphan.lookup "c" ≠ none := by decide

/-- C4, amended: when the DB step of the termination routine succeeds, the
session is removed from the registry; when it raises, the session remains
in the registry with phase COMPLETED (the handler returns a failure
dict). -/
theorem C4_termination_registry (m : SessionManager) (cid reason : String)
    (ora : EndOracle) (s : CallSession) (h : m.lookup cid = some s) :
    (ora.dbOk = true →
       (handle_call_ended m cid reason ora).2.1.lookup cid = none) ∧
    (ora.dbOk = false →
       (handle_call_ended m cid reason ora).2.1.lookup cid =
         some { s with phase := SessionPhase.completed }) := by
  constructor <;> intro hdb <;>
    simp [handle_call_ended, h, hdb]

/-- C4 witness: the amended termination behaviour at the concrete state
`mListening`, in both the successful and the failing DB case. -/
theorem C4_witness :
    (handle_call_ended mListening "c" "completed" ⟨none, true⟩).2.1.lookup "c" = none ∧
    (handle_call_ended mListening "c" "completed" ⟨none, false⟩).2.1.lookup "c" =
      some { sListening with phase := SessionPhase.completed } :=
  ⟨(C4_termination_registry mListening "c" "completed" ⟨none, true⟩ sListening
      (by decide)).1 rfl,
   (C4_termination_registry mListening "c" "completed" ⟨none, false⟩ sListening
      (by decide)).2 rfl⟩

/-! ## Claim C6 — audio outside LISTENING is dropped -/

/-- C6: if the session exists and its phase is not LISTENING,
`handle_speech_input` returns success ("Not in listening phase") without
issuing any provider call and with the only state change being the
`last_activity` refresh — `conversation_log`, `error_count` and `phase`
are untouched. -/
theorem C6_not_listening_drop (m : SessionManager) (cid : String) (now : Nat)
    (ora : TurnOracle) (s : CallSession) (h : m.lookup cid = some s)
    (hp : s.phase ≠ SessionPhase.listening) :
    handle_speech_input m cid now ora =
      (HandlerResult.ok "Not in listening phase",
       m.set cid { s with last_activity := now }, []) := by
  simp [handle_speech_input, h, hp]

/-- C6 witness: the drop at the concrete SPEAKING-phase state `mAnswered`. -/
theorem C6_witness :
    handle_speech_input mAnswered "c" 7 turnTTSFail =
      (HandlerResult.ok "Not in listening phase",
       mAnswered.set "c" { sSpeaking with last_activity := 7 }, []) :=
  C6_not_listening_drop mAnswered "c" 7 turnTTSFail sSpeaking (by decide) (by decide)

/-! ## Claim C8 — empty transcription short-circuits the pipeline -/

/-- C8: in LISTENING, if the transcription succeeds but its text strips to
the empty string, the handler reports "no speech detected", returns the
session to LISTENING, and issues no NLP, reply-generation or synthesis
call (the call trace holds only the transcription). -/
theorem C8_short_circuit (m : SessionManager) (cid : String) (now : Nat)
    (ora : TurnOracle) (s : CallSession) (t : Transcription)
    (h : m.lookup cid = some s) (hp : s.phase = SessionPhase.listening)
    (hstt : ora.stt = STTResult.ok t) (hempty : pyStrip t.text = "") :
    handle_speech_input m cid now ora =
      (HandlerResult.ok "No speech detected",
       m.set cid { s with last_activity := now }, ["stt.transcribe"]) := by
  obtain ⟨cida, ph, cs, st, la, isp, isl, lg, ec, me⟩ := s
  simp only at hp
  subst hp
  simp [handle_speech_input, h, hstt, hempty]

/-- C8 witness: the short-circuit on the whitespace transcription " \t "
at the concrete LISTENING state `mListening`. -/
theorem C8_witness :
    handle_speech_input mListening "c" 7 turnEmpty =
      (HandlerResult.ok "No speech detected",
       mListening.set "c" { sListening with last_activity := 7 },
       ["stt.transcribe"]) :=
  C8_short_circuit mListening "c" 7 turnEmpty sListening ⟨" \t ", 9⟩
    (by decide) (by decide) (by decide) (by decide)

/-! ## Claim C3 — error-recovery policy -/

/-- C3: on a failure handled by `_handle_session_error` before any forced
termination (`error_count < max_errors`), the counter is incremented and
stays ≤ `max_errors`; strictly below the limit the handler synthesizes the
fixed "please repeat" prompt and returns the session to LISTENING with
`conversation_log` and `conversation_state` untouched; exactly at the
limit it forces termination through `handle_call_ended` with reason
"error_limit_exceeded". -/
theorem C3_error_recovery (m : SessionManager) (cid : String) (ora : ErrOracle)
    (s : CallSession) (h : m.lookup cid = some s)
    (hlt : s.error_count < s.max_errors) :
    (s.error_count + 1 ≤ s.max_errors) ∧
    (s.error_count + 1 < s.max_errors → ora.recoveryTTSOk = true →
       handle_session_error m cid ora =
         (HandlerResult.recovery recoveryText,
          m.set cid { s with error_count := s.error_count + 1,
                             phase := SessionPhase.listening },
          ["tts.synthesize"])) ∧
    (s.error_count + 1 = s.max_errors →
       (handle_session_error m cid ora).1 = HandlerResult.limitExceeded ∧
       (ora.endOra.dbOk = true →
          (handle_session_error m cid ora).2.1.lookup cid = none ∧
          (handle_session_error m cid ora).2.1.ended_log =
            m.ended_log ++ [(cid, "error_limit_exceeded")])) := by
  refine ⟨by omega, ?_, ?_⟩
  · intro hlt2 hrec
    have hnot : ¬ s.error_count + 1 ≥ s.max_errors := by omega
    simp [handle_session_error, h, hnot, hrec]
  · intro heq
    have hge : s.error_count + 1 ≥ s.max_errors := by omega
    refine ⟨by simp [handle_session_error, h, hge], fun hdb => ?_⟩
    simp [handle_session_error, h, hge, handle_call_ended, hdb]

/-- C3 witness: a first failure on the fresh session `mC` (error_count 0,
max 3) yields the recovery prompt; a failure at error_count 2 forces
termination with reason "error_limit_exceeded" and registry removal. -/
theorem C3_witness :
    handle_session_error mC "c" okErr =
      (HandlerResult.recovery recoveryText,
       mC.set "c" { (CallSession.init "c" 0) with
                      error_count := 1, phase := SessionPhase.listening },
       ["tts.synthesize"]) ∧
    (handle_session_error (SessionManager.empty.set "e"
        { (CallSession.init "e" 0) with error_count := 2 }) "e" okErr).2.1.lookup "e"
      = none :=
  ⟨(C3_error_recovery mC "c" okErr (CallSession.init "c" 0) (by decide)
      (by decide)).2.1 (by decide) rfl,
   ((C3_error_recovery (SessionManager.empty.set "e"
        { (CallSession.init "e" 0) with error_count := 2 }) "e" okErr
        { (CallSession.init "e" 0) with error_count := 2 } (by decide)
        (by decide)).2.2 (by decide)).2 rfl |>.1⟩

/-! ## Claim C5 — partial results on pipeline failure -/

/-- C5, counterexample: a turn in which the transcription succeeds
("hello"), the inbound log commits, and the synthesis step then raises:
the turn is aborted to the error path (the recovery dict is returned),
yet the successful transcription has been persisted to
`conversation_log` — refuting "no partial result from steps that had
already completed is persisted". -/
theorem C5_counterexample :
    (handle_speech_input mListening "c" 7 turnTTSFail).1 =
      HandlerResult.recovery recoveryText ∧
    ((handle_speech_input mListening "c" 7 turnTTSFail).2.1.lookup "c").map
        CallSession.conversation_log =
      some [⟨"greeting", "outbound", "hello there"⟩,
            ⟨"speech", "inbound", "hello"⟩] := by decide

/-- C5, amended: a failing step aborts the turn and reports it to the error
path, but partial results persisted by earlier completed steps remain: if
the transcription succeeded and its DB log committed before the synthesis
step raised, the aborted turn leaves the transcription appended to
`conversation_log` (session back in LISTENING with `error_count`
incremented, below the error limit). -/
theorem C5_partial_persistence (m : SessionManager) (cid : String) (now : Nat)
    (ora : TurnOracle) (s : CallSession) (t : Transcription)
    (h : m.lookup cid = some s) (hp : s.phase = SessionPhase.listening)
    (hstt : ora.stt = STTResult.ok t) (hne : ¬ pyStrip t.text = "")
    (hlog : ora.logIn = ⟨true, true, true⟩) (htts : ora.ttsOk = false)
    (hrec : ora.errOra.recoveryTTSOk = true)
    (hcnt : s.error_count + 1 < s.max_errors) :
    handle_speech_input m cid now ora =
      (HandlerResult.recovery recoveryText,
       m.set cid { s with last_activity := now,
                          conversation_log := s.conversation_log ++
                            [⟨"speech", "inbound", t.text⟩],
                          error_count := s.error_count + 1,
                          phase := SessionPhase.listening },
       ["stt.transcribe", "db.log", "nlp.turn", "tts.synthesize",
        "tts.synthesize"]) := by
  obtain ⟨cida, ph, cs, st, la, isp, isl, lg, ec, me⟩ := s
  simp only at hp hcnt
  subst hp
  have hnot : ¬ ec + 1 ≥ me := by omega
  simp [handle_speech_input, h, hstt, hne, hlog, htts, log_interaction,
        handle_session_error, hrec, hnot]

/-- C5 witness: the amended persistence behaviour at the concrete state
`mListening` with the TTS-failing oracle. -/
theorem C5_witness :
    handle_speech_input mListening "c" 7 turnTTSFail =
      (HandlerResult.recovery recoveryText,
       mListening.set "c"
         { sListening with last_activity := 7,
                           conversation_log := sListening.conversation_log ++
                             [⟨"speech", "inbound", "hello"⟩],
                           error_count := 1,
                           phase := SessionPhase.listening },
       ["stt.transcribe", "db.log", "nlp.turn", "tts.synthesize",
        "tts.synthesize"]) :=
  C5_partial_persistence mListening "c" 7 turnTTSFail sListening ⟨"hello", 9⟩
    (by decide) (by decide) (by decide) (by decide) (by decide) (by decide)
    (by decide) (by decide)

/-! ## Claim C10 — persistence failures are isolated -/

theorem log_interaction_error_count (s : CallSession)
    (et dir content : String) (ora : DBLogOracle) :
    (log_interaction s et dir content ora).error_count = s.error_count := by
  unfold log_interaction
  split <;> try rfl
  split <;> try rfl
  split <;> rfl

theorem log_interaction_phase (s : CallSession)
    (et dir content : String) (ora : DBLogOracle) :
    (log_interaction s et dir content ora).phase = s.phase := by
  unfold log_interaction
  split <;> try rfl
  split <;> try rfl
  split <;> rfl

/-- C10: (a) `_log_interaction` appends to the in-memory
`conversation_log` exactly when the DB session opens, the call record is
found, and the commit succeeds; (b) in every other case it leaves the
session completely unchanged (the exception is swallowed); (c) a turn
whose pipeline steps all succeed returns the normal turn dict and leaves
`error_count` unchanged whatever the two logging oracles did — a
persistence failure never aborts the turn, never increments
`error_count`, and never diverts the phase to the error path. -/
theorem C10_persistence_isolation (s : CallSession) (et dir content : String)
    (ora : DBLogOracle) (m : SessionManager) (cid : String) (now : Nat)
    (tora : TurnOracle) (t : Transcription) :
    (ora.dbOk = true → ora.callFound = true → ora.commitOk = true →
       log_interaction s et dir content ora =
         { s with conversation_log :=
             s.conversation_log ++ [⟨et, dir, content⟩] }) ∧
    (¬(ora.dbOk = true ∧ ora.callFound = true ∧ ora.commitOk = true) →
       log_interaction s et dir content ora = s) ∧
    (m.lookup cid = some s → s.phase = SessionPhase.listening →
     tora.stt = STTResult.ok t → ¬ pyStrip t.text = "" → tora.ttsOk = true →
       (handle_speech_input m cid now tora).1 =
         HandlerResult.turn tora.nlp.text t.text tora.nlp.intent
           tora.nlp.should_end_call tora.nlp.should_transfer ∧
       ((handle_speech_input m cid now tora).2.1.lookup cid).map
           CallSession.error_count = some s.error_count) := by
  refine ⟨?_, ?_, ?_⟩
  · intro h1 h2 h3
    simp [log_interaction, h1, h2, h3]
  · intro hfail
    unfold log_interaction
    rcases hdb : ora.dbOk with _ | _
    · rfl
    · rcases hcf : ora.callFound with _ | _
      · rfl
      · rcases hco : ora.commitOk with _ | _
        · rfl
        · exact absurd ⟨hdb, hcf, hco⟩ hfail
  · intro h hp hstt hne htts
    obtain ⟨cida, ph, cs, st, la, isp, isl, lg, ec, me⟩ := s
    simp only at hp
    subst hp
    simp only [handle_speech_input, h, hstt, htts]
    constructor
    · simp [hne]
    · simp [hne, log_interaction_error_count]
      split
      · simp [log_interaction_error_count]
      · split <;> simp [log_interaction_error_count]

/-- C10 witness: a fully successful turn whose two DB log commits both
fail still returns the turn dict and leaves `error_count` at 0; the
failing log call leaves the session unchanged. -/
theorem C10_witness :
    (handle_speech_input mListening "c" 7 turnLogFail).1 =
      HandlerResult.turn "reply" "hello" "question" false false ∧
    ((handle_speech_input mListening "c" 7 turnLogFail).2.1.lookup "c").map
        CallSession.error_count = some 0 ∧
    log_interaction sListening "speech" "inbound" "hello" ⟨true, true, false⟩ =
      sListening :=
  ⟨((C10_persistence_isolation sListening "speech" "inbound" "hello"
      ⟨true, true, false⟩ mListening "c" 7 turnLogFail ⟨"hello", 9⟩).2.2
      (by decide) (by decide) (by decide) (by decide) (by decide)).1,
   ((C10_persistence_isolation sListening "speech" "inbound" "hello"
      ⟨true, true, false⟩ mListening "c" 7 turnLogFail ⟨"hello", 9⟩).2.2
      (by decide) (by decide) (by decide) (by decide) (by decide)).2,
   (C10_persistence_isolation sListening "speech" "inbound" "hello"
      ⟨true, true, false⟩ mListening "c" 7 turnLogFail ⟨"hello", 9⟩).2.1
      (by decide)⟩

/-! ## Claim C7 — idle sweeper -/

theorem hce_lookup_frame (m : SessionManager) (cid reason : String)
    (ora : EndOracle) (c : String) (hne : c ≠ cid) :
    (handle_call_ended m cid reason ora).2.1.lookup c = m.lookup c := by
  unfold handle_call_ended
  cases hl : m.lookup cid with
  | none => rfl
  | some s => cases hdb : ora.dbOk <;> simp [hdb, hne]

theorem hce_lookup_none (m : SessionManager) (cid reason : String)
    (ora : EndOracle) (c : String) (h : m.lookup c = none) :
    (handle_call_ended m cid reason ora).2.1.lookup c = none := by
  by_cases hc : c = cid
  · subst hc
    unfold handle_call_ended
    simp [h]
  · rw [hce_lookup_frame _ _ _ _ _ hc]
    exact h

theorem hce_log_mono (m : SessionManager) (cid reason : String)
    (ora : EndOracle) (x : String × String) (hx : x ∈ m.ended_log) :
    x ∈ (handle_call_ended m cid reason ora).2.1.ended_log := by
  unfold handle_call_ended
  cases hl : m.lookup cid with
  | none => exact hx
  | some s => cases hdb : ora.dbOk <;> simp [hdb, hx]

theorem hce_removes (m : SessionManager) (cid reason : String) (ora : EndOracle)
    (s : CallSession) (h : m.lookup cid = some s) (hdb : ora.dbOk = true) :
    (handle_call_ended m cid reason ora).2.1.lookup cid = none ∧
    (handle_call_ended m cid reason ora).2.1.ended_log =
      m.ended_log ++ [(cid, reason)] := by
  simp [handle_call_ended, h, hdb]

theorem foldl_sweep_frame (oras : String → EndOracle) (l : List String)
    (m : SessionManager) (c : String) (hc : c ∉ l) :
    (l.foldl (fun acc cid => (handle_call_ended acc cid "timeout" (oras cid)).2.1)
        m).lookup c = m.lookup c := by
  induction l generalizing m with
  | nil => rfl
  | cons a t ih =>
    rw [List.foldl_cons]
    have hct : c ∉ t := fun hm => hc (List.mem_cons_of_mem _ hm)
    have hca : c ≠ a := fun he => hc (he ▸ List.mem_cons_self a t)
    rw [ih _ hct, hce_lookup_frame _ _ _ _ _ hca]

theorem foldl_sweep_none (oras : String → EndOracle) (l : List String)
    (m : SessionManager) (c : String) (h : m.lookup c = none) :
    (l.foldl (fun acc cid => (handle_call_ended acc cid "timeout" (oras cid)).2.1)
        m).lookup c = none := by
  induction l generalizing m with
  | nil => exact h
  | cons a t ih =>
    rw [List.foldl_cons]
    exact ih _ (hce_lookup_none _ _ _ _ _ h)

theorem foldl_sweep_log_mono (oras : String → EndOracle) (l : List String)
    (m : SessionManager) (x : String × String) (hx : x ∈ m.ended_log) :
    x ∈ (l.foldl (fun acc cid => (handle_call_ended acc cid "timeout" (oras cid)).2.1)
        m).ended_log := by
  induction l generalizing m with
  | nil => exact hx
  | cons a t ih =>
    rw [List.foldl_cons]
    exact ih _ (hce_log_mono _ _ _ _ _ hx)

theorem lookupAL_mem (l : List (String × CallSession)) (cid : String)
    (s : CallSession) (h : lookupAL l cid = some s) : (cid, s) ∈ l := by
  induction l with
  | nil => simp [lookupAL] at h
  | cons p t ih =>
    obtain ⟨k, v⟩ := p
    by_cases hk : k = cid
    · subst hk
      simp [lookupAL] at h
      simp [h]
    · simp [lookupAL, hk] at h
      exact List.mem_cons_of_mem _ (ih h)

theorem mem_lookupAL (l : List (String × CallSession)) (cid : String)
    (s : CallSession) (hnd : (l.map Prod.fst).Nodup) (hm : (cid, s) ∈ l) :
    lookupAL l cid = some s := by
  induction l with
  | nil => simp at hm
  | cons p t ih =>
    obtain ⟨k, v⟩ := p
    simp only [List.map_cons, List.nodup_cons] at hnd
    rcases List.mem_cons.mp hm with heq | hmt
    · injection heq with h1 h2
      subst h1
      subst h2
      simp [lookupAL]
    · have hk : k ≠ cid := by
        intro hke
        subst hke
        exact hnd.1 (List.mem_map.mpr ⟨(k, s), hmt, rfl⟩)
      simp [lookupAL, hk]
      exact ih hnd.2 hmt

theorem mem_stale_of (m : SessionManager) (now : Nat) (cid : String)
    (s : CallSession) (h : m.lookup cid = some s)
    (hst : now - s.last_activity > inactivity_threshold) :
    cid ∈ stale_sessions m now := by
  have hm := lookupAL_mem _ _ _ h
  simp only [stale_sessions, List.mem_map]
  exact ⟨(cid, s), List.mem_filter.mpr ⟨hm, by simpa using hst⟩, rfl⟩

theorem not_mem_stale (m : SessionManager) (now : Nat) (cid : String)
    (s : CallSession) (hnd : (m.active_sessions.map Prod.fst).Nodup)
    (h : m.lookup cid = some s)
    (hst : ¬ now - s.last_activity > inactivity_threshold) :
    cid ∉ stale_sessions m now := by
  intro hmem
  simp only [stale_sessions, List.mem_map] at hmem
  obtain ⟨⟨k, b⟩, hb, hfst⟩ := hmem
  obtain ⟨hbl, hcond⟩ := List.mem_filter.mp hb
  cases hfst
  have := mem_lookupAL _ _ _ hnd hbl
  rw [SessionManager.lookup] at h
  rw [h] at this
  cases this
  exact hst (by simpa using hcond)

theorem stale_nodup (m : SessionManager) (now : Nat)
    (hnd : (m.active_sessions.map Prod.fst).Nodup) :
    (stale_sessions m now).Nodup := by
  have hsub := (List.filter_sublist
    (p := fun p => decide (now - p.2.last_activity > inactivity_threshold))
    m.active_sessions).map Prod.fst
  exact hnd.sublist hsub

/-- C7: on one sweep tick, every session whose `last_activity` is more
than the 1800-second threshold old is terminated through the common
`handle_call_ended` routine with reason "timeout" (so, when the DB step
succeeds, it is removed from the registry and the timeout reason is
recorded), and every session within the threshold is left completely
untouched. -/
theorem C7_idle_sweep (m : SessionManager) (now : Nat)
    (oras : String → EndOracle) (cid : String) (s : CallSession)
    (h : m.lookup cid = some s)
    (hnd : (m.active_sessions.map Prod.fst).Nodup) :
    (now - s.last_activity > inactivity_threshold → (oras cid).dbOk = true →
       (cleanup_tick m now oras).lookup cid = none ∧
       (cid, "timeout") ∈ (cleanup_tick m now oras).ended_log) ∧
    (¬ now - s.last_activity > inactivity_threshold →
       (cleanup_tick m now oras).lookup cid = some s) := by
  constructor
  · intro hst hdb
    have hmem := mem_stale_of m now cid s h hst
    have hndst := stale_nodup m now hnd
    obtain ⟨l1, l2, hsplit⟩ := List.append_of_mem hmem
    rw [hsplit, List.nodup_append] at hndst
    obtain ⟨hn1, hn2, hdisj⟩ := hndst
    have hcid_l1 : cid ∉ l1 := fun hc => hdisj hc (List.mem_cons_self _ _)
    unfold cleanup_tick
    rw [hsplit, List.foldl_append, List.foldl_cons]
    have hlook1 : (l1.foldl (fun acc c =>
        (handle_call_ended acc c "timeout" (oras c)).2.1) m).lookup cid = some s := by
      rw [foldl_sweep_frame _ _ _ _ hcid_l1]
      exact h
    have hrem := hce_removes _ cid "timeout" (oras cid) s hlook1 hdb
    refine ⟨foldl_sweep_none _ _ _ _ hrem.1, ?_⟩
    apply foldl_sweep_log_mono
    rw [hrem.2]
    simp
  · intro hst
    have hnmem := not_mem_stale m now cid s hnd h hst
    unfold cleanup_tick
    rw [foldl_sweep_frame _ _ _ _ hnmem]
    exact h

/-- C7 witness: sweeping at time 2000 terminates the session of
`mListening` (inactive since time 0) with reason "timeout" and removes it
from the registry. -/
theorem C7_witness :
    (cleanup_tick mListening 2000 (fun _ => ⟨none, true⟩)).lookup "c" = none ∧
    ("c", "timeout") ∈ (cleanup_tick mListening 2000 (fun _ => ⟨none, true⟩)).ended_log :=
  (C7_idle_sweep mListening 2000 (fun _ => ⟨none, true⟩) "c" sListening
    (by decide) (by decide)).1 (by decide) rfl

/-! ## Claim C1 — phase-transition discipline -/

theorem hse_none (m : SessionManager) (cid : String) (ora : ErrOracle)
    (h : m.lookup cid = none) :
    handle_session_error m cid ora = (HandlerResult.critical, m, []) := by
  simp [handle_session_error, h]

theorem hce_phaseOf (m : SessionManager) (cid reason : String) (ora : EndOracle)
    (c : String) :
    (handle_call_ended m cid reason ora).2.1.phaseOf c = m.phaseOf c ∨
    (handle_call_ended m cid reason ora).2.1.phaseOf c = some SessionPhase.completed ∨
    (handle_call_ended m cid reason ora).2.1.phaseOf c = none := by
  unfold handle_call_ended
  cases hl : m.lookup cid with
  | none => left; rfl
  | some s =>
    cases hdb : ora.dbOk
    · by_cases hc : c = cid
      · subst hc
        right; left
        simp [SessionManager.phaseOf]
      · left
        simp [SessionManager.phaseOf, hc]
    · by_cases hc : c = cid
      · subst hc
        right; right
        simp [SessionManager.phaseOf]
      · left
        simp [SessionManager.phaseOf, hc]

theorem hse_red_limit (m : SessionManager) (cid : String) (ora : ErrOracle)
    (s : CallSession) (h : m.lookup cid = some s)
    (hge : s.error_count + 1 ≥ s.max_errors) :
    (handle_session_error m cid ora).2.1 =
      (handle_call_ended
        (m.set cid { s with error_count := s.error_count + 1,
                            phase := SessionPhase.error })
        cid "error_limit_exceeded" ora.endOra).2.1 := by
  simp [handle_session_error, h, hge]

theorem hse_red_recovery (m : SessionManager) (cid : String) (ora : ErrOracle)
    (s : CallSession) (h : m.lookup cid = some s)
    (hge : ¬ s.error_count + 1 ≥ s.max_errors) (hrec : ora.recoveryTTSOk = true) :
    (handle_session_error m cid ora).2.1 =
      m.set cid { s with error_count := s.error_count + 1,
                         phase := SessionPhase.listening } := by
  simp [handle_session_error, h, hge, hrec]

theorem hse_red_critical (m : SessionManager) (cid : String) (ora : ErrOracle)
    (s : CallSession) (h : m.lookup cid = some s)
    (hge : ¬ s.error_count + 1 ≥ s.max_errors) (hrec : ora.recoveryTTSOk = false) :
    (handle_session_error m cid ora).2.1 =
      m.set cid { s with error_count := s.error_count + 1,
                         phase := SessionPhase.error } := by
  simp [handle_session_error, h, hge, hrec]

theorem hse_phaseOf_target (m : SessionManager) (cid : String) (ora : ErrOracle)
    (s : CallSession) (h : m.lookup cid = some s) :
    (handle_session_error m cid ora).2.1.phaseOf cid = some SessionPhase.error ∨
    (handle_session_error m cid ora).2.1.phaseOf cid = some SessionPhase.listening ∨
    (handle_session_error m cid ora).2.1.phaseOf cid = some SessionPhase.completed ∨
    (handle_session_error m cid ora).2.1.phaseOf cid = none := by
  by_cases hge : s.error_count + 1 ≥ s.max_errors
  · rw [hse_red_limit m cid ora s h hge]
    rcases hce_phaseOf (m.set cid
        { s with error_count := s.error_count + 1, phase := SessionPhase.error })
        cid "error_limit_exceeded" ora.endOra cid with g | g | g
    · left
      rw [g]
      simp [SessionManager.phaseOf]
    · right; right; left; exact g
    · right; right; right; exact g
  · cases hrec : ora.recoveryTTSOk
    · left
      rw [hse_red_critical m cid ora s h hge hrec]
      simp [SessionManager.phaseOf]
    · right; left
      rw [hse_red_recovery m cid ora s h hge hrec]
      simp [SessionManager.phaseOf]

theorem hse_lookup_frame (m : SessionManager) (cid : String) (ora : ErrOracle)
    (c : String) (hne : c ≠ cid) :
    (handle_session_error m cid ora).2.1.lookup c = m.lookup c := by
  cases hl : m.lookup cid with
  | none => rw [hse_none _ _ _ hl]
  | some s =>
    by_cases hge : s.error_count + 1 ≥ s.max_errors
    · rw [hse_red_limit m cid ora s hl hge, hce_lookup_frame _ _ _ _ _ hne]
      simp [hne]
    · cases hrec : ora.recoveryTTSOk
      · rw [hse_red_critical m cid ora s hl hge hrec]
        simp [hne]
      · rw [hse_red_recovery m cid ora s hl hge hrec]
        simp [hne]

theorem hsi_red_notFound (m : SessionManager) (cid : String) (now : Nat)
    (ora : TurnOracle) (hl : m.lookup cid = none) :
    handle_speech_input m cid now ora = (HandlerResult.critical, m, []) := by
  have h2 := hse_none m cid ora.errOra hl
  simp [handle_speech_input, hl, h2]

theorem hsi_red_sttFail (m : SessionManager) (cid : String) (now : Nat)
    (ora : TurnOracle) (s : CallSession) (hl : m.lookup cid = some s)
    (hp : s.phase = SessionPhase.listening) (hstt : ora.stt = STTResult.fail) :
    (handle_speech_input m cid now ora).2.1 =
      (handle_session_error
        (m.set cid { s with last_activity := now,
                            phase := SessionPhase.processingSpeech })
        cid ora.errOra).2.1 := by
  simp [handle_speech_input, hl, hp, hstt]

theorem hsi_red_ttsFail (m : SessionManager) (cid : String) (now : Nat)
    (ora : TurnOracle) (s : CallSession) (tr : Transcription)
    (hl : m.lookup cid = some s) (hp : s.phase = SessionPhase.listening)
    (hstt : ora.stt = STTResult.ok tr) (hempty : ¬ pyStrip tr.text = "")
    (htts : ora.ttsOk = false) :
    (handle_speech_input m cid now ora).2.1 =
      (handle_session_error
        (m.set cid
          { (log_interaction
              { s with last_activity := now, phase := SessionPhase.processingSpeech }
              "speech" "inbound" tr.text ora.logIn) with
            phase := SessionPhase.generatingResponse })
        cid ora.errOra).2.1 := by
  simp [handle_speech_input, hl, hp, hstt, hempty, htts]

theorem hsi_lookup_frame (m : SessionManager) (cid : String) (now : Nat)
    (ora : TurnOracle) (c : String) (hne : c ≠ cid) :
    (handle_speech_input m cid now ora).2.1.lookup c = m.lookup c := by
  cases hl : m.lookup cid with
  | none => rw [hsi_red_notFound m cid now ora hl]
  | some s =>
    by_cases hp : s.phase = SessionPhase.listening
    · cases hstt : ora.stt with
      | fail =>
        rw [hsi_red_sttFail m cid now ora s hl hp hstt,
            hse_lookup_frame _ _ _ _ hne]
        simp [hne]
      | ok tr =>
        by_cases hempty : pyStrip tr.text = ""
        · simp [handle_speech_input, hl, hp, hstt, hempty, hne]
        · cases htts : ora.ttsOk
          · rw [hsi_red_ttsFail m cid now ora s tr hl hp hstt hempty htts,
                hse_lookup_frame _ _ _ _ hne]
            simp [hne]
          · simp [handle_speech_input, hl, hp, hstt, hempty, htts, hne]
    · simp [handle_speech_input, hl, hp, hne]

theorem hca_red_ttsFail (m : SessionManager) (cid : String) (ora : AnswerOracle)
    (s : CallSession) (hl : m.lookup cid = some s) (htts : ora.ttsOk = false) :
    (handle_call_answered m cid ora).2.1 =
      (handle_session_error
        (m.set cid { s with phase := SessionPhase.greeting, is_listening := true })
        cid ora.errOra).2.1 := by
  simp [handle_call_answered, hl, htts]

theorem hca_lookup_frame (m : SessionManager) (cid : String)
    (ora : AnswerOracle) (c : String) (hne : c ≠ cid) :
    (handle_call_answered m cid ora).2.1.lookup c = m.lookup c := by
  cases hl : m.lookup cid with
  | none =>
    have h2 := hse_none m cid ora.errOra hl
    simp [handle_call_answered, hl, h2]
  | some s =>
    cases htts : ora.ttsOk
    · rw [hca_red_ttsFail m cid ora s hl htts, hse_lookup_frame _ _ _ _ hne]
      simp [hne]
    · simp [handle_call_answered, hl, htts, hne]

theorem hca_phaseOf_target (m : SessionManager) (cid : String)
    (ora : AnswerOracle) :
    (handle_call_answered m cid ora).2.1.phaseOf cid = m.phaseOf cid ∨
    (handle_call_answered m cid ora).2.1.phaseOf cid = some SessionPhase.speaking ∨
    (handle_call_answered m cid ora).2.1.phaseOf cid = some SessionPhase.listening ∨
    (handle_call_answered m cid ora).2.1.phaseOf cid = some SessionPhase.error ∨
    (handle_call_answered m cid ora).2.1.phaseOf cid = some SessionPhase.completed ∨
    (handle_call_answered m cid ora).2.1.phaseOf cid = none := by
  cases hl : m.lookup cid with
  | none =>
    left
    have h2 := hse_none m cid ora.errOra hl
    simp [handle_call_answered, hl, h2]
  | some s =>
    cases htts : ora.ttsOk
    · rw [hca_red_ttsFail m cid ora s hl htts]
      have := hse_phaseOf_target
        (m.set cid { s with phase := SessionPhase.greeting, is_listening := true })
        cid ora.errOra
        { s with phase := SessionPhase.greeting, is_listening := true } (by simp)
      rcases this with g | g | g | g
      · right; right; right; left; exact g
      · right; right; left; exact g
      · right; right; right; right; left; exact g
      · right; right; right; right; right; exact g
    · right; left
      simp [handle_call_answered, hl, htts, SessionManager.phaseOf]

theorem hsi_phaseOf_target (m : SessionManager) (cid : String) (now : Nat)
    (ora : TurnOracle) :
    (m.phaseOf cid = some SessionPhase.listening →
      ((handle_speech_input m cid now ora).2.1.phaseOf cid = some SessionPhase.listening ∨
       (handle_speech_input m cid now ora).2.1.phaseOf cid = some SessionPhase.speaking ∨
       (handle_speech_input m cid now ora).2.1.phaseOf cid = some SessionPhase.ending ∨
       (handle_speech_input m cid now ora).2.1.phaseOf cid = some SessionPhase.transferring ∨
       (handle_speech_input m cid now ora).2.1.phaseOf cid = some SessionPhase.error ∨
       (handle_speech_input m cid now ora).2.1.phaseOf cid = some SessionPhase.completed ∨
       (handle_speech_input m cid now ora).2.1.phaseOf cid = none)) ∧
    (m.phaseOf cid ≠ some SessionPhase.listening →
      (handle_speech_input m cid now ora).2.1.phaseOf cid = m.phaseOf cid) := by
  cases hl : m.lookup cid with
  | none =>
    constructor
    · intro hp
      rw [SessionManager.phaseOf, hl] at hp
      simp at hp
    · intro _
      rw [hsi_red_notFound m cid now ora hl]
  | some s =>
    have hps : m.phaseOf cid = some s.phase := by
      rw [SessionManager.phaseOf, hl]
      rfl
    by_cases hp : s.phase = SessionPhase.listening
    · refine ⟨fun _ => ?_, fun hcon => absurd (hps.trans (by rw [hp])) hcon⟩
      cases hstt : ora.stt with
      | fail =>
        rw [hsi_red_sttFail m cid now ora s hl hp hstt]
        have := hse_phaseOf_target
          (m.set cid
            { s with last_activity := now, phase := SessionPhase.processingSpeech })
          cid ora.errOra
          { s with last_activity := now, phase := SessionPhase.processingSpeech }
          (by simp)
        rcases this with g | g | g | g
        · right; right; right; right; left; exact g
        · left; exact g
        · right; right; right; right; right; left; exact g
        · right; right; right; right; right; right; exact g
      | ok tr =>
        by_cases hempty : pyStrip tr.text = ""
        · left
          simp [handle_speech_input, hl, hp, hstt, hempty, SessionManager.phaseOf]
        · cases htts : ora.ttsOk
          · rw [hsi_red_ttsFail m cid now ora s tr hl hp hstt hempty htts]
            have := hse_phaseOf_target
              (m.set cid
                { (log_interaction
                    { s with last_activity := now, phase := SessionPhase.processingSpeech }
                    "speech" "inbound" tr.text ora.logIn) with
                  phase := SessionPhase.generatingResponse })
              cid ora.errOra
              { (log_interaction
                  { s with last_activity := now, phase := SessionPhase.processingSpeech }
                  "speech" "inbound" tr.text ora.logIn) with
                phase := SessionPhase.generatingResponse } (by simp)
            rcases this with g | g | g | g
            · right; right; right; right; left; exact g
            · left; exact g
            · right; right; right; right; right; left; exact g
            · right; right; right; right; right; right; exact g
          · by_cases hend : ora.nlp.should_end_call
            · right; right; left
              simp [handle_speech_input, hl, hp, hstt, hempty, htts, hend,
                    SessionManager.phaseOf]
            · by_cases htr : ora.nlp.should_transfer
              · right; right; right; left
                simp [handle_speech_input, hl, hp, hstt, hempty, htts, hend, htr,
                      SessionManager.phaseOf]
              · right; left
                simp [handle_speech_input, hl, hp, hstt, hempty, htts, hend, htr,
                      SessionManager.phaseOf]
    · refine ⟨fun hcon => absurd hcon (by rw [hps]; simpa using hp), fun _ => ?_⟩
      simp [handle_speech_input, hl, hp, SessionManager.phaseOf, hps]

/-- C1, counterexample: the event sequence create; answered; speech-done
leaves session "c" in LISTENING, and a single call-ended event then moves
it directly to COMPLETED (here with a failing DB write, so the phase is
still observable in the registry) — no intermediate ENDING or
TRANSFERRING phase ever occurs, refuting the claimed §4.2-only
transition discipline. -/
theorem C1_counterexample :
    mListening.phaseOf "c" = some SessionPhase.listening ∧
    (step mListening "c" 0 (Event.ended "completed" ⟨none, false⟩)).phaseOf "c"
      = some SessionPhase.completed := by decide

/-- C1, amended: phases change only along handler-specific arrows that do
not consult the §4.2 table: session creation (re)sets INITIALIZING;
call-answered drives any phase to SPEAKING (or to LISTENING/ERROR/COMPLETED/
removal through the error path); speech-finished sets LISTENING from any
phase; call-ended — and every sweeper timeout — sets COMPLETED (or removes
the session) directly from any phase, in particular straight from
LISTENING; and inbound speech acts only on a LISTENING session, which it
moves to SPEAKING/ENDING/TRANSFERRING/LISTENING (or ERROR/COMPLETED/removal
on failure), leaving any other phase untouched. -/
theorem C1_phase_discipline (m : SessionManager) (cid c : String) (now : Nat)
    (e : Event) :
    phaseStepOk e (m.phaseOf c) ((step m cid now e).phaseOf c) := by
  cases e with
  | create =>
    by_cases hc : c = cid
    · subst hc
      right
      simp [step, create_session, SessionManager.phaseOf, CallSession.init]
    · left
      simp [step, create_session, SessionManager.phaseOf, hc]
  | speechDone =>
    simp only [phaseStepOk, step]
    unfold handle_speech_completed
    cases hl : m.lookup cid with
    | none => left; rfl
    | some s =>
      by_cases hc : c = cid
      · subst hc
        right
        simp [SessionManager.phaseOf]
      · left
        simp [SessionManager.phaseOf, hc]
  | ended reason ora =>
    simpa only [phaseStepOk, step] using hce_phaseOf m cid reason ora c
  | sweep oras =>
    simp only [phaseStepOk, step]
    unfold cleanup_tick
    generalize stale_sessions m now = l
    induction l generalizing m with
    | nil => left; rfl
    | cons a t ih =>
      rw [List.foldl_cons]
      rcases ih ((handle_call_ended m a "timeout" (oras a)).2.1) with g | g | g
      · rcases hce_phaseOf m a "timeout" (oras a) c with g2 | g2 | g2
        · left; rw [g, g2]
        · right; left; rw [g, g2]
        · right; right; rw [g, g2]
      · right; left; exact g
      · right; right; exact g
  | answered ora =>
    simp only [phaseStepOk, step]
    by_cases hc : c = cid
    · subst hc
      exact hca_phaseOf_target m c ora
    · left
      rw [SessionManager.phaseOf, SessionManager.phaseOf,
          hca_lookup_frame _ _ _ _ hc]
  | speech ora =>
    simp only [phaseStepOk, step]
    by_cases hc : c = cid
    · subst hc
      by_cases hp : m.phaseOf c = some SessionPhase.listening
      · rw [if_pos hp]
        rcases (hsi_phaseOf_target m c now ora).1 hp with g | g | g | g | g | g | g
        · left; rw [g, hp]
        · right; left; exact g
        · right; right; left; exact g
        · right; right; right; left; exact g
        · right; right; right; right; left; exact g
        · right; right; right; right; right; left; exact g
        · right; right; right; right; right; right; exact g
      · rw [if_neg hp]
        exact (hsi_phaseOf_target m c now ora).2 hp
    · have hfr : (handle_speech_input m cid now ora).2.1.phaseOf c = m.phaseOf c := by
        rw [SessionManager.phaseOf, SessionManager.phaseOf,
            hsi_lookup_frame _ _ _ _ _ hc]
      by_cases hp : m.phaseOf c = some SessionPhase.listening
      · rw [if_pos hp]
        left
        exact hfr
      · rw [if_neg hp]
        exact hfr

end AICall
